import Mathlib

/-!
Verification of the pricing engine of `src/devis_app.py` (assistant-devis).

The engine is embedded shallowly over the exact rationals `ℚ`: every monetary
and physical quantity that the Python code holds in a float is modelled as a
rational, and the decimal-literal parsing done by Python is modelled as an
exact decimal parse.  All definitions follow the source file `devis_app.py`;
the only external semantics modelled is the Python builtin `float` and the
string primitives `split` / `strip` / `replace`, which the source calls.
-/

namespace DevisApp

attribute [local semireducible] Rat.add Rat.mul Rat.sub Rat.inv Rat.ofScientific

/-- Thickness formula `e = R × λ` in meters (`calculate_thickness` in
devis_app.py). -/
def calculate_thickness (resistance lambda_value : ℚ) : ℚ :=
  resistance * lambda_value

/-- Split a character list at every occurrence of the separator, mirroring
Python `str.split(sep)`: the empty string yields one empty segment, and a
separator at either end yields an empty segment there. -/
def splitOnChar (sep : Char) : List Char → List (List Char)
  | [] => [[]]
  | c :: cs =>
    if c = sep then [] :: splitOnChar sep cs
    else
      match splitOnChar sep cs with
      | [] => [[c]]
      | seg :: segs => (c :: seg) :: segs

/-- Strip leading and trailing whitespace, mirroring Python `str.strip()`. -/
def trimChars (cs : List Char) : List Char :=
  ((cs.dropWhile Char.isWhitespace).reverse.dropWhile Char.isWhitespace).reverse

/-- Decimal value of a list of digit characters. -/
def digitsVal (ds : List Char) : ℕ :=
  ds.foldl (fun a c => 10 * a + (c.toNat - 48)) 0

/-- Every character of the list is a decimal digit. -/
def allDigits (ds : List Char) : Bool :=
  ds.all Char.isDigit

/-- Mantissa of a decimal literal: digit characters with at most one dot and at
least one digit (Python `float` accepts `"5."` and `".5"` but not `"."` or the
empty string).  Returns the exact rational value. -/
def parseMantissa (cs : List Char) : Option ℚ :=
  match splitOnChar '.' cs with
  | [a] =>
    if a.isEmpty || !allDigits a then none
    else some (digitsVal a : ℚ)
  | [a, b] =>
    if (a.isEmpty && b.isEmpty) || !allDigits a || !allDigits b then none
    else some ((digitsVal a : ℚ) + (digitsVal b : ℚ) / (10 : ℚ) ^ b.length)
  | _ => none

/-- Exponent part of a decimal literal (an optional sign followed by digits),
returned as the power-of-ten multiplier it denotes. -/
def expMult (cs : List Char) : Option ℚ :=
  match cs with
  | '+' :: rest =>
    if rest.isEmpty || !allDigits rest then none
    else some ((10 : ℚ) ^ digitsVal rest)
  | '-' :: rest =>
    if rest.isEmpty || !allDigits rest then none
    else some (1 / (10 : ℚ) ^ digitsVal rest)
  | _ =>
    if cs.isEmpty || !allDigits cs then none
    else some ((10 : ℚ) ^ digitsVal cs)

/-- Models the Python builtin `float` on the finite decimal-literal
syntax the application feeds it: an optional sign, a digit mantissa with an
optional dot, and an optional `e`/`E` exponent.  Digit-group underscores and
the `inf`/`nan` spellings are outside this model; the value is the exact
rational the literal denotes. -/
def pyFloat (cs : List Char) : Option ℚ :=
  let go : List Char → Option ℚ := fun body =>
    match splitOnChar 'e' (body.map Char.toLower) with
    | [m] => parseMantissa m
    | [m, ex] =>
      match parseMantissa m, expMult ex with
      | some mv, some em => some (mv * em)
      | _, _ => none
    | _ => none
  match cs with
  | '+' :: rest => go rest
  | '-' :: rest => (go rest).map Neg.neg
  | _ => go cs

/-- Python `part.strip().replace(",", ".")` applied to one segment, as done in
the loop body of `parse_surface_input`. -/
def normalizeSeg (part : List Char) : List Char :=
  (trimChars part).map (fun c => if c = ',' then '.' else c)

/-- Embedding of `parse_surface_input` (devis_app.py): empty input gives 0,
otherwise the input is split on `+`, each segment is stripped and its decimal
comma normalised to a dot, segments that parse are summed and segments that
fail to parse are silently skipped. -/
def parse_surface_input (value : String) : ℚ :=
  if value = "" then 0
  else
    (splitOnChar '+' value.toList).foldl
      (fun total part =>
        match pyFloat (normalizeSeg part) with
        | some x => total + x
        | none => total)
      0

/-- A foam product: conductivity λ, unit price (currency per cm of thickness
per m²), and the zones it is conventionally used for. -/
structure Foam where
  lambda : ℚ
  price : ℚ
  allowed_zones : List String

/-- Zone catalog with minimum thermal resistances (`RESISTANCES` in
devis_app.py). -/
def RESISTANCES : List (String × ℚ) :=
  [("Murs", 3.7), ("Rampants", 6.2), ("Combles", 7.0),
   ("Vide sanitaires", 3.0), ("Plafonds de cave", 3.0), ("Sol", 3.0)]

/-- Foam catalog (`FOAMS` in devis_app.py). -/
def FOAMS : List (String × Foam) :=
  [("008E (cellules ouvertes)",
     ⟨0.037, 1.50, ["Murs", "Rampants", "Combles", "Vide sanitaires"]⟩),
   ("240PX (cellules fermées Isotrie)",
     ⟨0.0225, 3.80, ["Murs", "Sol", "Plafonds de cave"]⟩),
   ("35Z (cellules fermées Synthésia)",
     ⟨0.027, 3.50, ["Murs", "Sol", "Plafonds de cave"]⟩)]

/-- Achieved thermal resistance for a thickness given in centimeters
(devis_app.py line 153): `(thickness_cm / 100) / λ` when `λ > 0`, else 0. -/
def r_calc (thickness_cm lambda_val : ℚ) : ℚ :=
  if 0 < lambda_val then thickness_cm / 100 / lambda_val else 0

/-- Default thickness proposed for a zone, in centimeters (devis_app.py
line 145): the required thickness in meters times 100. -/
def default_thick_cm (r_min lambda_val : ℚ) : ℚ :=
  calculate_thickness r_min lambda_val * 100

/-- Round-trip travel cost (devis_app.py line 107 reads
`distance * 2 * 1.0`; the literal `1.0` is the per-kilometer rate, fixed to
one currency unit in the source and declared configurable by the design). -/
def travel_cost (distance rate_per_km : ℚ) : ℚ :=
  distance * 2 * rate_per_km

/-- The per-kilometer rate the source hard-codes (the `1.0` of line 107,
labelled "1 €/km A/R" in the UI). -/
def RATE_PER_KM : ℚ := 1

/-- The user-supplied inputs of one quote line, as read by the widgets inside
the per-zone loop of `run_app`:  zone name, raw surface expression, the conductivity and
unit price of the chosen foam plus its display name, the (possibly
overridden) thickness in cm, the Walls cutting checkbox, the Walls opening
count and per-opening cost, the Floor flat protection fee and sanding rate,
and the cellar-ceiling cutting rate. -/
structure LineInput where
  zone_name : String
  surface_expr : String
  lambda_val : ℚ
  unit_price : ℚ
  foam_choice : String
  thickness_cm : ℚ
  include_cut : Bool
  nb_menuiseries : ℕ
  cost_per_menuiserie : ℚ
  cost_protection : ℚ
  cost_sanding_m2 : ℚ
  cost_cutting_m2 : ℚ
  deriving DecidableEq

/-- One computed quote line, the tuple
`(zone, surface, mousse, ep_cm, cout_mousse_ht, extras_ht)` appended to
`line_items` in `run_app`. -/
structure LineItem where
  zone : String
  surface : ℚ
  foam : String
  thickness_cm : ℚ
  material_cost : ℚ
  extras : ℚ
  deriving DecidableEq

/-- The body of the per-line loop of `run_app` (devis_app.py lines 135–216):
parse the surface expression, `material_cost = thickness_cm × unit_price ×
surface`, then the zone-specific extras — Walls: the 5 €/m² cutting surcharge
when the checkbox is ticked and the surface is positive, plus openings times
per-opening cost; Floor ("Sol"): flat protection fee plus sanding rate times
surface; cellar ceilings ("Plafonds de cave"): cutting rate times surface;
any other zone: 0. -/
def computeLine (inp : LineInput) : LineItem :=
  let surface := parse_surface_input inp.surface_expr
  let cost_per_m2 := inp.thickness_cm * inp.unit_price
  let material_cost := cost_per_m2 * surface
  let extras : ℚ :=
    if inp.zone_name = "Murs" then
      (if inp.include_cut = true ∧ 0 < surface then 5 * surface else 0)
        + (inp.nb_menuiseries : ℚ) * inp.cost_per_menuiserie
    else if inp.zone_name = "Sol" then
      inp.cost_protection + inp.cost_sanding_m2 * surface
    else if inp.zone_name = "Plafonds de cave" then
      inp.cost_cutting_m2 * surface
    else 0
  ⟨inp.zone_name, surface, inp.foam_choice, inp.thickness_cm, material_cost, extras⟩

/-- The accumulator threaded through the per-line loop of `run_app`:
`total_material_cost`, `total_extra_cost`, `zone_summaries`, `line_items`.
The summary strings of the source are modelled by the records they are
formatted from. -/
structure AccState where
  total_material_cost : ℚ
  total_extra_cost : ℚ
  zone_summaries : List LineItem
  line_items : List LineItem

/-- One iteration of the loop (devis_app.py lines 207–216): the totals always
absorb the costs of the line; the summary and line-item lists only receive lines
with positive surface. -/
def stepLine (acc : AccState) (inp : LineInput) : AccState :=
  let li := computeLine inp
  let tm := acc.total_material_cost + li.material_cost
  let te := acc.total_extra_cost + li.extras
  if 0 < li.surface then
    ⟨tm, te, acc.zone_summaries ++ [li], acc.line_items ++ [li]⟩
  else
    ⟨tm, te, acc.zone_summaries, acc.line_items⟩

/-- The whole per-line loop, starting from zeroed totals and empty lists. -/
def accumLines (lines : List LineInput) : AccState :=
  lines.foldl stepLine ⟨0, 0, [], []⟩

/-- The aggregate outputs of `run_app`: the two display lists, the accumulated
totals, the travel cost, the global miscellaneous charge, and the pre-tax
total `total_ht = total_material_cost + total_extra_cost + travel_cost +
extra_global` of devis_app.py line 219. -/
structure QuoteTotals where
  line_items : List LineItem
  zone_summaries : List LineItem
  total_material_cost : ℚ
  total_extra_cost : ℚ
  travel_cost : ℚ
  extra_global : ℚ
  total_ht : ℚ

/-- Aggregation of a list of line inputs with a travel distance, a
per-kilometer rate and the global miscellaneous charge. -/
def aggregate (lines : List LineInput) (distance rate_per_km extra_global : ℚ) :
    QuoteTotals :=
  let acc := accumLines lines
  let travel := travel_cost distance rate_per_km
  ⟨acc.line_items, acc.zone_summaries,
   acc.total_material_cost, acc.total_extra_cost, travel, extra_global,
   acc.total_material_cost + acc.total_extra_cost + travel + extra_global⟩

/-- The computation `run_app` performs, with the per-kilometer rate fixed to
the constant of the source. -/
def run_quote (lines : List LineInput) (distance extra_global : ℚ) : QuoteTotals :=
  aggregate lines distance RATE_PER_KM extra_global

/-- Tax amount `total_ht × rate` (devis_app.py line 285). -/
def tva_amount (total_ht tva_rate : ℚ) : ℚ :=
  total_ht * tva_rate

/-- Tax-inclusive total `total_ht + tva_amount` (devis_app.py line 286). -/
def total_ttc (total_ht tva_rate : ℚ) : ℚ :=
  total_ht + tva_amount total_ht tva_rate

/-- Walls example line of the spec: surface 20 m², thickness 10 cm, unit
price 1.50, cutting surcharge ticked, 2 openings at 10 € each. -/
def exLine1 : LineInput :=
  ⟨"Murs", "20", 0.037, 1.50, "008E (cellules ouvertes)", 10, true, 2, 10, 0, 0, 0⟩

/-- Second example line of the spec: material 100, no extras (a Rampants line
of 10 m² at unit price 1 and thickness 10 cm). -/
def exLine2 : LineInput :=
  ⟨"Rampants", "10", 0.037, 1, "008E (cellules ouvertes)", 10, true, 0, 0, 0, 0, 0⟩

/-- A Walls line with empty surface expression (surface 0) but one opening to
protect at 10 €: its extras are positive though it is displayed nowhere. -/
def zeroSurfMursLine : LineInput :=
  ⟨"Murs", "", 0.037, 1.50, "008E (cellules ouvertes)", 10, true, 1, 10, 0, 0, 0⟩

/-- A Floor line with empty surface expression (surface 0) but a flat
protection fee of 10 €: its extras are positive though it is displayed
nowhere. -/
def zeroSurfSolLine : LineInput :=
  ⟨"Sol", "", 0.0225, 3.80, "240PX (cellules fermées Isotrie)", 10, true, 0, 0, 10, 0, 0⟩

/-- A line whose surface expression is a negative number. -/
def negLine : LineInput :=
  ⟨"Murs", "-5", 0.037, 1.50, "008E (cellules ouvertes)", 10, false, 0, 0, 0, 0, 0⟩

/-- A zero-surface Floor line whose opening count and flat protection fee are
zero but whose per-square-meter rates and thickness are not. -/
def zeroLineW : LineInput :=
  ⟨"Sol", "", 0.0225, 3.80, "240PX (cellules fermées Isotrie)", 10, true, 0, 99, 0, 5, 7⟩

/-- The per-line loop is a fold; unrolling it: the two totals accumulate the
costs of every line, while the two display lists collect exactly the computed
lines of positive surface, in order. -/
theorem foldl_stepLine (lines : List LineInput) (acc : AccState) :
    lines.foldl stepLine acc =
      ⟨acc.total_material_cost
          + (lines.map (fun l => (computeLine l).material_cost)).sum,
       acc.total_extra_cost + (lines.map (fun l => (computeLine l).extras)).sum,
       acc.zone_summaries
          ++ (lines.map computeLine).filter (fun li => decide (0 < li.surface)),
       acc.line_items
          ++ (lines.map computeLine).filter (fun li => decide (0 < li.surface))⟩ := by
  induction lines generalizing acc with
  | nil => simp
  | cons l ls ih =>
    simp only [List.foldl_cons, List.map_cons, List.sum_cons, List.filter_cons, ih]
    unfold stepLine
    by_cases h : 0 < (computeLine l).surface
    · simp [h, add_assoc]
    · simp [h, add_assoc]

/-- Summing with silent skipping is summing the parse results with failed
segments contributing zero. -/
theorem foldl_skip_sum (parts : List (List Char)) (init : ℚ) :
    parts.foldl
        (fun total part =>
          match pyFloat (normalizeSeg part) with
          | some x => total + x
          | none => total) init
      = init + (parts.map (fun part => (pyFloat (normalizeSeg part)).getD 0)).sum := by
  induction parts generalizing init with
  | nil => simp
  | cons p ps ih =>
    simp only [List.foldl_cons, List.map_cons, List.sum_cons, ih]
    cases h : pyFloat (normalizeSeg p) with
    | none => simp [h]
    | some x => simp [h, add_assoc]

/-- C1: for every list of line items, travel distance, per-kilometer rate,
miscellaneous charge and tax rate, the travel cost is distance times two times
the rate, the pre-tax subtotal is the sum of all material costs plus the sum
of all extras plus travel plus the miscellaneous charge, the tax amount is the
subtotal times the rate and the tax-inclusive total is subtotal plus tax; in
particular for line items (300, 120) and (100, 0), distance 10 km at 1 per km,
miscellaneous 15 and rate 20 percent the subtotal is 555, the tax 111 and the
total 666. -/
theorem C1_quote_aggregation :
    (∀ (lines : List LineInput) (distance rate_per_km extra_global tva_rate : ℚ),
        (aggregate lines distance rate_per_km extra_global).travel_cost
            = distance * 2 * rate_per_km ∧
        (aggregate lines distance rate_per_km extra_global).total_ht
            = (lines.map (fun l => (computeLine l).material_cost)).sum
                + (lines.map (fun l => (computeLine l).extras)).sum
                + distance * 2 * rate_per_km + extra_global ∧
        tva_amount ((aggregate lines distance rate_per_km extra_global).total_ht)
            tva_rate
            = (aggregate lines distance rate_per_km extra_global).total_ht
                * tva_rate ∧
        total_ttc ((aggregate lines distance rate_per_km extra_global).total_ht)
            tva_rate
            = (aggregate lines distance rate_per_km extra_global).total_ht
                + tva_amount
                    ((aggregate lines distance rate_per_km extra_global).total_ht)
                    tva_rate) ∧
    ((computeLine exLine1).material_cost = 300 ∧ (computeLine exLine1).extras = 120 ∧
     (computeLine exLine2).material_cost = 100 ∧ (computeLine exLine2).extras = 0 ∧
     (run_quote [exLine1, exLine2] 10 15).total_ht = 555 ∧
     tva_amount 555 (20 / 100) = 111 ∧
     total_ttc 555 (20 / 100) = 666) := by
  constructor
  · intro lines distance rate_per_km extra_global tva_rate
    have h := foldl_stepLine lines ⟨0, 0, [], []⟩
    refine ⟨rfl, ?_, rfl, rfl⟩
    simp only [aggregate, accumLines, h, travel_cost, zero_add]
  · exact ⟨by decide, by decide, by decide, by decide, by decide, by decide, by decide⟩

/-- C2: computing the required thickness as R times lambda and converting to
centimeters, then the achieved resistance of that thickness, returns R again
for every R at least 0 and lambda above 0. -/
theorem C2_round_trip_resistance (R lam : ℚ) (hR : 0 ≤ R) (hlam : 0 < lam) :
    r_calc (calculate_thickness R lam * 100) lam = R := by
  unfold r_calc calculate_thickness
  rw [if_pos hlam]
  have hne : lam ≠ 0 := ne_of_gt hlam
  field_simp

/-- C2 witness at R = 3.7 and lambda = 0.037. -/
theorem C2_round_trip_resistance_witness :
    r_calc (calculate_thickness (37 / 10) (37 / 1000) * 100) (37 / 1000) = 37 / 10 :=
  C2_round_trip_resistance (37 / 10) (37 / 1000) (by decide) (by decide)

/-- C3: for a Walls line item of non-negative surface, the material cost is
thickness times unit price times surface, and the extras are the 5 per square
meter cutting surcharge when the checkbox is enabled plus the opening count
times the per-opening cost. -/
theorem C3_walls_line (expr foam : String)
    (lam unit_price thickness_cm : ℚ) (include_cut : Bool) (nb : ℕ)
    (cpm prot sand cutc surface : ℚ)
    (hs : 0 ≤ surface) (hparse : parse_surface_input expr = surface) :
    (computeLine ⟨"Murs", expr, lam, unit_price, foam, thickness_cm, include_cut,
        nb, cpm, prot, sand, cutc⟩).material_cost
        = thickness_cm * unit_price * surface ∧
    (computeLine ⟨"Murs", expr, lam, unit_price, foam, thickness_cm, include_cut,
        nb, cpm, prot, sand, cutc⟩).extras
        = (if include_cut = true then 5 * surface else 0) + (nb : ℚ) * cpm := by
  unfold computeLine
  simp only [hparse]
  refine ⟨trivial, ?_⟩
  rw [if_pos trivial]
  by_cases hp : 0 < surface
  · simp [hp]
  · have h0 : surface = 0 := le_antisymm (not_lt.mp hp) hs
    subst h0
    simp

/-- C3 witness: the Walls example with surface 20, thickness 10 cm, unit price
1.50, cutting enabled, 2 openings at 10 each: material 300, extras 120, line
total 420. -/
theorem C3_walls_line_witness :
    ((computeLine ⟨"Murs", "20", 37 / 1000, 3 / 2, "008E (cellules ouvertes)", 10,
        true, 2, 10, 0, 0, 0⟩).material_cost = 10 * (3 / 2) * 20 ∧
     (computeLine ⟨"Murs", "20", 37 / 1000, 3 / 2, "008E (cellules ouvertes)", 10,
        true, 2, 10, 0, 0, 0⟩).extras
        = (if (true : Bool) = true then 5 * (20 : ℚ) else 0) + ((2 : ℕ) : ℚ) * 10) ∧
    (computeLine ⟨"Murs", "20", 37 / 1000, 3 / 2, "008E (cellules ouvertes)", 10,
        true, 2, 10, 0, 0, 0⟩).material_cost
      + (computeLine ⟨"Murs", "20", 37 / 1000, 3 / 2, "008E (cellules ouvertes)", 10,
        true, 2, 10, 0, 0, 0⟩).extras = 420 :=
  ⟨C3_walls_line "20" "008E (cellules ouvertes)" (37 / 1000) (3 / 2) 10 true 2 10
      0 0 0 20 (by decide) (by decide),
   by decide⟩

/-- C4: the surface parse is the sum, over the segments obtained by splitting
on plus, of the value of each trimmed comma-normalised segment that parses,
failing segments contributing zero; and the four reference examples. -/
theorem C4_surface_expression_parse :
    (∀ value : String,
        parse_surface_input value
          = ((splitOnChar '+' value.toList).map
              (fun part => (pyFloat (normalizeSeg part)).getD 0)).sum) ∧
    parse_surface_input "20+10+5" = 35 ∧
    parse_surface_input "20,5+4" = 49 / 2 ∧
    parse_surface_input "" = 0 ∧
    parse_surface_input "abc+5" = 5 := by
  refine ⟨fun value => ?_, by decide, by decide, by decide, by decide⟩
  by_cases hv : value = ""
  · subst hv
    decide
  · unfold parse_surface_input
    rw [if_neg hv, foldl_skip_sum, zero_add]

/-- C5 counterexample: the required thickness at R = 3.7 and lambda = 0.037 is
not 0.137 meters, and the default thickness for the Walls zone is not 13.7 cm. -/
theorem C5_default_thickness_counterexample :
    ¬ (calculate_thickness (37 / 10) (37 / 1000) = 137 / 1000
        ∧ default_thick_cm (37 / 10) (37 / 1000) = 137 / 10) := by decide

/-- C5 amended: the required thickness at R = 3.7 and lambda = 0.037 is 0.1369
meters, i.e. the default thickness for the Walls zone is 13.69 cm after the
conversion by 100. -/
theorem C5_default_thickness_amended :
    calculate_thickness (37 / 10) (37 / 1000) = 1369 / 10000 ∧
    default_thick_cm (37 / 10) (37 / 1000) = 1369 / 100 := by decide

/-- C6: the zone extras are the flat protection fee plus sanding rate times
surface for the Floor zone, the cutting rate times surface for the
cellar-ceiling zone, and zero for the sloped-roof, attic and crawl-space
zones. -/
theorem C6_zone_extras (expr foam : String) (lam price t : ℚ) (cut : Bool)
    (nb : ℕ) (cpm prot sand cutc : ℚ) :
    (computeLine ⟨"Sol", expr, lam, price, foam, t, cut, nb, cpm, prot, sand,
        cutc⟩).extras = prot + sand * parse_surface_input expr ∧
    (computeLine ⟨"Plafonds de cave", expr, lam, price, foam, t, cut, nb, cpm,
        prot, sand, cutc⟩).extras = cutc * parse_surface_input expr ∧
    (computeLine ⟨"Rampants", expr, lam, price, foam, t, cut, nb, cpm, prot,
        sand, cutc⟩).extras = 0 ∧
    (computeLine ⟨"Combles", expr, lam, price, foam, t, cut, nb, cpm, prot,
        sand, cutc⟩).extras = 0 ∧
    (computeLine ⟨"Vide sanitaires", expr, lam, price, foam, t, cut, nb, cpm,
        prot, sand, cutc⟩).extras = 0 := by
  refine ⟨?_, ?_, ?_, ?_, ?_⟩ <;> simp [computeLine]

/-- C7 counterexample: a quote whose only line has surface 0 (empty surface
expression), with travel 0 and miscellaneous 0, still has a pre-tax subtotal
of 10 because the zero-surface Walls line carries one opening at 10. -/
theorem C7_zero_surface_counterexample :
    parse_surface_input zeroSurfMursLine.surface_expr = 0 ∧
    (run_quote [zeroSurfMursLine] 0 0).total_ht = 10 ∧
    ¬ ((run_quote [zeroSurfMursLine] 0 0).total_ht = 0) := by decide

/-- C7 amended: when every line has surface 0 and additionally every opening
count and every flat protection fee is zero, then with travel 0 and
miscellaneous 0 the subtotal, the tax amount and the tax-inclusive total are
all 0, for every remaining choice of thickness, per-opening cost and
per-square-meter rates. -/
theorem C7_zero_surface_amended (lines : List LineInput) (tva_rate : ℚ)
    (h : ∀ l ∈ lines, parse_surface_input l.surface_expr = 0
          ∧ l.nb_menuiseries = 0 ∧ l.cost_protection = 0) :
    (run_quote lines 0 0).total_ht = 0 ∧
    tva_amount ((run_quote lines 0 0).total_ht) tva_rate = 0 ∧
    total_ttc ((run_quote lines 0 0).total_ht) tva_rate = 0 := by
  have hz : ∀ l ∈ lines,
      (computeLine l).material_cost = 0 ∧ (computeLine l).extras = 0 := by
    intro l hl
    obtain ⟨h1, h2, h3⟩ := h l hl
    unfold computeLine
    simp only [h1]
    constructor
    · simp
    · split_ifs <;> simp [h2, h3]
  have hm : (lines.map (fun l => (computeLine l).material_cost)).sum = 0 := by
    apply List.sum_eq_zero
    intro x hx
    obtain ⟨l, hl, rfl⟩ := List.mem_map.mp hx
    exact (hz l hl).1
  have he : (lines.map (fun l => (computeLine l).extras)).sum = 0 := by
    apply List.sum_eq_zero
    intro x hx
    obtain ⟨l, hl, rfl⟩ := List.mem_map.mp hx
    exact (hz l hl).2
  have hht : (run_quote lines 0 0).total_ht = 0 := by
    have hfold := foldl_stepLine lines ⟨0, 0, [], []⟩
    simp only [run_quote, aggregate, accumLines, hfold, hm, he, travel_cost,
      RATE_PER_KM]
    ring
  refine ⟨hht, ?_, ?_⟩ <;> simp [hht, tva_amount, total_ttc]

/-- C7 amended witness: a single Floor line with empty surface, no openings and
no flat protection fee, but nonzero sanding and cutting rates, yields zero
subtotal, zero tax at 20 percent and zero total. -/
theorem C7_zero_surface_amended_witness :
    (run_quote [zeroLineW] 0 0).total_ht = 0 ∧
    tva_amount ((run_quote [zeroLineW] 0 0).total_ht) (20 / 100) = 0 ∧
    total_ttc ((run_quote [zeroLineW] 0 0).total_ht) (20 / 100) = 0 :=
  C7_zero_surface_amended [zeroLineW] (20 / 100) (by decide)

/-- C8: the achieved-resistance computation is total: when lambda is positive
it returns thickness over 100 over lambda, and when lambda is not positive it
returns 0 without any error. -/
theorem C8_achieved_resistance_total (thickness_cm lam : ℚ) :
    (0 < lam → r_calc thickness_cm lam = thickness_cm / 100 / lam) ∧
    (lam ≤ 0 → r_calc thickness_cm lam = 0) := by
  constructor
  · intro hpos
    rw [r_calc, if_pos hpos]
  · intro hneg
    rw [r_calc, if_neg (not_lt.mpr hneg)]

/-- C8 witness at thickness 10 cm with lambda 0.037 and lambda 0. -/
theorem C8_achieved_resistance_total_witness :
    r_calc 10 (37 / 1000) = 10 / 100 / (37 / 1000) ∧ r_calc 10 0 = 0 :=
  ⟨(C8_achieved_resistance_total 10 (37 / 1000)).1 (by decide),
   (C8_achieved_resistance_total 10 0).2 (by decide)⟩

/-- C9: the line-item list and the summary list contain exactly the computed
lines of positive surface, while the accumulated totals sum over all lines;
concretely, a quote made of a zero-surface Walls line with one opening at 10
and a zero-surface Floor line with flat protection 10 displays no line at all
yet accumulates 20 of extras. -/
theorem C9_totals_include_hidden_lines :
    (∀ (lines : List LineInput) (distance rate_per_km extra_global : ℚ),
        (aggregate lines distance rate_per_km extra_global).line_items
            = (lines.map computeLine).filter (fun li => decide (0 < li.surface)) ∧
        (aggregate lines distance rate_per_km extra_global).zone_summaries
            = (lines.map computeLine).filter (fun li => decide (0 < li.surface)) ∧
        (aggregate lines distance rate_per_km extra_global).total_material_cost
            = (lines.map (fun l => (computeLine l).material_cost)).sum ∧
        (aggregate lines distance rate_per_km extra_global).total_extra_cost
            = (lines.map (fun l => (computeLine l).extras)).sum) ∧
    ((run_quote [zeroSurfMursLine, zeroSurfSolLine] 0 0).line_items = [] ∧
     (run_quote [zeroSurfMursLine, zeroSurfSolLine] 0 0).zone_summaries = [] ∧
     (run_quote [zeroSurfMursLine, zeroSurfSolLine] 0 0).total_extra_cost = 20 ∧
     0 < (run_quote [zeroSurfMursLine, zeroSurfSolLine] 0 0).total_extra_cost) := by
  constructor
  · intro lines distance rate_per_km extra_global
    have hfold := foldl_stepLine lines ⟨0, 0, [], []⟩
    refine ⟨?_, ?_, ?_, ?_⟩ <;> simp [aggregate, accumLines, hfold]
  · exact ⟨by decide, by decide, by decide, by decide⟩

/-- C10: the parse accepts a negative segment, so a surface and hence a
material cost can be negative: parsing the expression consisting of minus
five gives minus 5, and the corresponding Walls line at thickness 10 cm and
unit price 1.50 has material cost minus 75. -/
theorem C10_negative_surface :
    parse_surface_input "-5" = -5 ∧
    (computeLine negLine).surface = -5 ∧
    (computeLine negLine).material_cost = -75 ∧
    (computeLine negLine).material_cost < 0 := by
  exact ⟨by decide, by decide, by decide, by decide⟩

end DevisApp
